import Mathlib

/-!
Verification development for the securaCV repository.

Part 1 models the MQTT binary-sensor message handlers of
`custom_components/securacv/binary_sensor.py`: decoded JSON payloads,
Python truthiness and dict access, and the per-sensor callback logic
(tamper aggregator, per-tamper-type sensors, chain, transport, mesh,
chirp, and the discovery callback).

Part 2 models the eFuse verifiers of `firmware/provisioning/verify_device.py`
(rule table `SECURITY_EFUSES` and `verify_efuses`) and of
`firmware/provisioning/securacv-provisioning/scripts/verify_device.py`
(`verify_post_provision`).

Conventions: `json.loads` outcomes are represented by `Payload` (either a
non-JSON string, which raises `JSONDecodeError` in Python, or a decoded
`JVal`).  Each Home Assistant callback mutates the entity in place; we model
it as a function from prior state and payload to (new state, optionally an
uncaught Python exception).  Exceptions listed in a handler's `except`
clause are absorbed exactly where the source absorbs them.
-/

namespace SecuraCV

/-- Exceptions that can escape or be caught inside a handler. -/
inductive PyErr where
  | attributeError
  | typeError
deriving DecidableEq, Repr

/-- Decoded JSON values (the possible results of `json.loads`). -/
inductive JVal where
  | jnull
  | jbool (b : Bool)
  | jint (n : Int)
  | jstr (s : String)
  | jarr (elems : List JVal)
  | jobj (fields : List (String × JVal))

/-- A raw MQTT payload: either a string that is not valid JSON
(`json.loads` raises `JSONDecodeError`) or the decoded JSON value. -/
inductive Payload where
  | notJson (raw : String)
  | js (v : JVal)

/-- Python truthiness of a decoded JSON value (`bool(x)`). -/
def truthy : JVal → Bool
  | .jnull => false
  | .jbool b => b
  | .jint n => n != 0
  | .jstr s => !(s == "")
  | .jarr elems => !elems.isEmpty
  | .jobj fields => !fields.isEmpty

/-- `d.get(key, default)` on a decoded JSON object given as field list. -/
def dictGet (fields : List (String × JVal)) (key : String) (dflt : JVal) : JVal :=
  (fields.lookup key).getD dflt

/-- `v.get(key, default)` on an arbitrary value: raises `AttributeError`
unless `v` is a dict. -/
def pyGet (v : JVal) (key : String) (dflt : JVal) : Except PyErr JVal :=
  match v with
  | .jobj fields => .ok (dictGet fields key dflt)
  | _ => .error .attributeError

/-- Python `x == s` where `s` is a `str`: true only for an equal string. -/
def pyEqStr (v : JVal) (s : String) : Bool :=
  match v with
  | .jstr t => t == s
  | _ => false

/-- Python `x < k` for an `int` literal `k`: numeric for ints and bools
(`True` counts as 1), `TypeError` otherwise. -/
def pyLtInt (v : JVal) (k : Int) : Except PyErr Bool :=
  match v with
  | .jint n => .ok (decide (n < k))
  | .jbool b => .ok (decide ((if b then (1 : Int) else 0) < k))
  | _ => .error .typeError

/-- Python `x > k` for an `int` literal `k`. -/
def pyGtInt (v : JVal) (k : Int) : Except PyErr Bool :=
  match v with
  | .jint n => .ok (decide (n > k))
  | .jbool b => .ok (decide ((if b then (1 : Int) else 0) > k))
  | _ => .error .typeError

/-- Python `len(x)`: defined for str, list and dict, `TypeError` otherwise. -/
def pyLen (v : JVal) : Except PyErr Int :=
  match v with
  | .jstr s => .ok s.length
  | .jarr elems => .ok elems.length
  | .jobj fields => .ok fields.length
  | _ => .error .typeError

/-- The ten per-tamper-type sensors created by the discovery callback
(`const.py` tamper event types). -/
inductive TamperType where
  | powerLoss | sdRemove | sdError | gpsJamming | motion
  | enclosure | gpio | watchdog | reboot | memory
deriving DecidableEq, Repr

/-- The MQTT string for each tamper type (`TAMPER_*` constants). -/
def TamperType.key : TamperType → String
  | .powerLoss => "power_loss"
  | .sdRemove => "sd_remove"
  | .sdError => "sd_error"
  | .gpsJamming => "gps_jamming"
  | .motion => "motion"
  | .enclosure => "enclosure"
  | .gpio => "gpio"
  | .watchdog => "watchdog"
  | .reboot => "unexpected_reboot"
  | .memory => "memory_critical"

/-- State of a `SecuraCVCanaryTamperTypeSensor`: `_attr_is_on` and
`_last_triggered` (timestamps abstracted to `Nat`, `datetime.now` passed
in as `now`). -/
structure TTState where
  is_on : Bool
  last_triggered : Option Nat
deriving DecidableEq, Repr

/-- `SecuraCVCanaryTamperTypeSensor._handle_tamper_message`: on the tamper
topic, a JSON object whose `type` equals this sensor's tamper type, or with
a truthy field named after it, latches the sensor on and stamps
`last_triggered`; otherwise nothing changes.  `JSONDecodeError`/`TypeError`
are passed; `.get` on a non-dict raises `AttributeError` (uncaught). -/
def ttTamperHandle (t : TamperType) (now : Nat) (p : Payload) (s : TTState) :
    TTState × Option PyErr :=
  match p with
  | .notJson _ => (s, none)
  | .js (.jobj fields) =>
      if pyEqStr (dictGet fields "type" .jnull) t.key
          || truthy (dictGet fields t.key .jnull) then
        ({ is_on := true, last_triggered := some now }, none)
      else (s, none)
  | .js _ => (s, some .attributeError)

/-- The `is_triggered` computation of
`SecuraCVCanaryTamperTypeSensor._handle_health_message`, branch by branch
over the sensor's tamper type.  `td` is `tamper_data = data.get("tamper", {})`.
Comparisons on non-numeric values raise `TypeError`; `.get` on a non-dict
`tamper_data` raises `AttributeError`. -/
def healthTriggered (t : TamperType) (fields : List (String × JVal))
    (td : JVal) : Except PyErr Bool :=
  match t with
  | .sdRemove => .ok (!truthy (dictGet fields "sd_mounted" (.jbool true)))
  | .sdError => pyGtInt (dictGet fields "sd_errors" (.jint 0)) 0
  | .gpsJamming =>
      .ok (truthy (dictGet fields "gps_fix_lost" (.jbool false))
        || truthy (dictGet fields "gps_jamming" (.jbool false)))
  | .motion => do
      let m ← pyGet td "motion" (.jbool false)
      .ok (truthy m || truthy (dictGet fields "unexpected_motion" (.jbool false)))
  | .memory => pyLtInt (dictGet fields "free_heap" (.jint 100000)) 10000
  | .watchdog => .ok (truthy (dictGet fields "watchdog_triggered" (.jbool false)))
  | .gpio => do
      let g ← pyGet td "gpio" (.jbool false)
      .ok (truthy g || truthy (dictGet fields "tamper_gpio" (.jbool false)))
  | .reboot => .ok (truthy (dictGet fields "unexpected_reboot" (.jbool false)))
  | .powerLoss => .ok (truthy (dictGet fields "power_loss_detected" (.jbool false)))
  | .enclosure => do
      let e ← pyGet td "enclosure" (.jbool false)
      .ok (truthy e || truthy (dictGet fields "enclosure_open" (.jbool false)))

/-- `SecuraCVCanaryTamperTypeSensor._handle_health_message`: recomputes the
trigger from the health payload and overwrites `_attr_is_on` with it;
`_last_triggered` is stamped only on a false-to-true transition.
`JSONDecodeError` and `TypeError` are absorbed (state unchanged);
`AttributeError` escapes. -/
def ttHealthHandle (t : TamperType) (now : Nat) (p : Payload) (s : TTState) :
    TTState × Option PyErr :=
  match p with
  | .notJson _ => (s, none)
  | .js (.jobj fields) =>
      let td := dictGet fields "tamper" (.jobj [])
      match healthTriggered t fields td with
      | .error .typeError => (s, none)
      | .error e => (s, some e)
      | .ok trig =>
          ({ is_on := trig,
             last_triggered :=
               if trig && !s.is_on then some now else s.last_triggered }, none)
  | .js _ => (s, some .attributeError)

/-- `SecuraCVCanaryTamperSensor._handle_message` (health topic): the
any-tamper aggregator's `_attr_is_on` becomes
`bool(data.get("tamper_detected", data.get("tamper", False)))`. -/
def aggHealthHandle (p : Payload) (s : Bool) : Bool × Option PyErr :=
  match p with
  | .notJson _ => (s, none)
  | .js (.jobj fields) =>
      (truthy (dictGet fields "tamper_detected"
        (dictGet fields "tamper" (.jbool false))), none)
  | .js _ => (s, some .attributeError)

/-- `SecuraCVCanaryTamperSensor._handle_tamper_message` (tamper topic): any
message sets `_attr_is_on = True`; even an undecodable payload counts as a
raw tamper alert.  On a decoded non-dict the flag is set before the
attribute reads raise `AttributeError`. -/
def aggTamperHandle (p : Payload) (_s : Bool) : Bool × Option PyErr :=
  match p with
  | .notJson _ => (true, none)
  | .js (.jobj _) => (true, none)
  | .js _ => (true, some .attributeError)

/-- `SecuraCVCanaryChainValidSensor._handle_message`: chain validity follows
`data.get("valid", data.get("integrity", True))`; undecodable payloads leave
the optimistic prior state untouched. -/
def chainHandle (p : Payload) (s : Bool) : Bool × Option PyErr :=
  match p with
  | .notJson _ => (s, none)
  | .js (.jobj fields) =>
      (truthy (dictGet fields "valid"
        (dictGet fields "integrity" (.jbool true))), none)
  | .js _ => (s, some .attributeError)

/-- `SecuraCVCanaryTransportSensor._handle_message`: the per-channel entry
is read; a dict updates from its `connected` field, a bare bool is taken
directly, anything else leaves the state. -/
def transportHandle (channel : String) (p : Payload) (s : Bool) :
    Bool × Option PyErr :=
  match p with
  | .notJson _ => (s, none)
  | .js (.jobj fields) =>
      match dictGet fields channel (.jobj []) with
      | .jobj tfields => (truthy (dictGet tfields "connected" (.jbool false)), none)
      | .jbool b => (b, none)
      | _ => (s, none)
  | .js _ => (s, some .attributeError)

/-- `SecuraCVCanaryMeshConnectedSensor._handle_message`:
`peer_count = data.get("peer_count", len(data.get("peers", [])))`, on with a
positive count; `TypeError` from `len` or the comparison is absorbed. -/
def meshHandle (p : Payload) (s : Bool) : Bool × Option PyErr :=
  match p with
  | .notJson _ => (s, none)
  | .js (.jobj fields) =>
      let step : Except PyErr Bool := do
        -- the default argument len(data.get("peers", [])) is evaluated eagerly
        let n ← pyLen (dictGet fields "peers" (.jarr []))
        pyGtInt (dictGet fields "peer_count" (.jint n)) 0
      match step with
      | .error .typeError => (s, none)
      | .error e => (s, some e)
      | .ok b => (b, none)
  | .js _ => (s, some .attributeError)

/-- `SecuraCVCanaryChirpActiveSensor._handle_message`:
`data.get("enabled", False) and data.get("ready", False)`, by truthiness. -/
def chirpHandle (p : Payload) (s : Bool) : Bool × Option PyErr :=
  match p with
  | .notJson _ => (s, none)
  | .js (.jobj fields) =>
      (truthy (dictGet fields "enabled" (.jbool false))
        && truthy (dictGet fields "ready" (.jbool false)), none)
  | .js _ => (s, some .attributeError)

/-!
Discovery: `_async_discover_binary_sensors` in
`_setup_mqtt_binary_sensors`.  The module-level dict
`entities_added : dict[str, set[str]]` is modelled as an association list
from device id to the list of entity-group keys already created.
-/

/-- The discovery registry: device id mapped to its already-created
entity-group keys (`entities_added`). -/
abbrev Registry : Type := List (String × List String)

/-- Keys already created for a device (an absent device reads as none). -/
def lookupReg (r : Registry) (d : String) : List String :=
  (r.lookup d).getD []

/-- Store the key set for a device, replacing an existing entry in place. -/
def setReg (r : Registry) (d : String) (ks : List String) : Registry :=
  match r with
  | [] => [(d, ks)]
  | (d', ks') :: rest =>
      if d = d' then (d, ks) :: rest else (d', ks') :: setReg rest d ks

/-- The per-pair check-and-insert performed by each discovery branch:
`if key not in entities_added[device_id]: entities_added[device_id].add(key)`,
reporting whether this was the first sighting of the pair. -/
def registerIfNew (r : Registry) (d c : String) : Bool × Registry :=
  let seen := lookupReg r d
  if seen.contains c then (false, r)
  else (true, setReg r d (c :: seen))

/-- The discovery callback's topic-to-entity-group table, in source order:
(topic suffix, entity-group key added to `entities_added[device_id]`). -/
def discoveryChecks : List (String × String) :=
  [("status", "online"),
   ("chain", "chain_valid"),
   ("health", "tamper"),
   ("tamper", "tamper_sensors"),
   ("transport", "transport_sensors"),
   ("mesh", "mesh_connected"),
   ("chirp", "chirp_active")]

/-- Run the sequence of `if topic_type == T and key not in seen` branches,
returning the entity-group keys created (in order) and the updated key set. -/
def runChecks (topicType : String) (checks : List (String × String))
    (seen : List String) : List String × List String :=
  match checks with
  | [] => ([], seen)
  | (t, k) :: rest =>
      if topicType == t && !seen.contains k then
        let out := runChecks topicType rest (k :: seen)
        (k :: out.1, out.2)
      else runChecks topicType rest seen

/-- Python `topic.split("/")` for the single-character separator. -/
def splitSlash (chars : List Char) : List (List Char) :=
  match chars with
  | [] => [[]]
  | c :: rest =>
      let r := splitSlash rest
      if c = '/' then [] :: r
      else
        match r with
        | [] => [[c]]
        | g :: gs => (c :: g) :: gs

/-- The discovery callback `_async_discover_binary_sensors`: split the
topic, bail out on fewer than three segments, take `parts[-2]` as device id
and `parts[-1]` as topic type, ensure the device entry, and run the
branches.  Returns the entity-group keys created and the new registry. -/
def discoverStep (r : Registry) (topic : String) : List String × Registry :=
  let parts := splitSlash topic.data
  if parts.length < 3 then ([], r)
  else
    let deviceId : String := ⟨(parts.getD (parts.length - 2) [])⟩
    let topicType : String := ⟨(parts.getD (parts.length - 1) [])⟩
    let seen := lookupReg r deviceId
    let out := runChecks topicType discoveryChecks seen
    (out.1, setReg r deviceId out.2)

/-!
Part 2a: `firmware/provisioning/verify_device.py` — the `SECURITY_EFUSES`
rule table and `verify_efuses`.  Raw attribute values coming out of the
summary parsers are ints, strings, or dicts (the JSON summary wraps each
value as a dict with a `value` key, which `verify_efuses` unwraps).
-/

/-- A raw eFuse attribute value handed to `verify_efuses`. -/
inductive RawVal where
  | rint (n : Int)
  | rstr (s : String)
  | rdict (fields : List (String × RawVal))

/-- Per-mode expected value of a rule: an `int` literal, the lambda
`lambda v: v in [...]`, or the lambda `lambda v: v >= 0`. -/
inductive Expected where
  | lit (n : Int)
  | inList (l : List Int)
  | geZero
deriving DecidableEq, Repr

/-- The two recognized verification modes. -/
inductive Mode where
  | virgin
  | locked
deriving DecidableEq, Repr

/-- One entry of the `SECURITY_EFUSES` table. -/
structure EfuseRule where
  name : String
  virgin : Expected
  locked : Expected
  description : String
deriving DecidableEq, Repr

/-- The `SECURITY_EFUSES` table of `verify_device.py`, in source order. -/
def SECURITY_EFUSES : List EfuseRule :=
  [⟨"SECURE_BOOT_EN", .lit 0, .lit 1, "Enables Secure Boot v2"⟩,
   ⟨"SECURE_BOOT_AGGRESSIVE_REVOKE", .lit 0, .lit 1,
     "Aggressive key revocation mode"⟩,
   ⟨"SPI_BOOT_CRYPT_CNT", .lit 0, .inList [1, 3, 5, 7],
     "Flash encryption enable counter"⟩,
   ⟨"DIS_DOWNLOAD_MODE", .lit 0, .lit 1, "Disable ROM download mode"⟩,
   ⟨"JTAG_SEL_ENABLE", .lit 0, .lit 0, "JTAG selection (should stay 0)"⟩,
   ⟨"SOFT_DIS_JTAG", .lit 0, .lit 7, "Software JTAG disable"⟩,
   ⟨"DIS_PAD_JTAG", .lit 0, .lit 1, "Disable pad JTAG"⟩,
   ⟨"DIS_USB_JTAG", .lit 0, .lit 1, "Disable USB JTAG"⟩,
   ⟨"DIS_DOWNLOAD_MANUAL_ENCRYPT", .lit 0, .lit 1,
     "Disable manual flash encryption in download mode"⟩,
   ⟨"SECURE_VERSION", .lit 0, .geZero, "Secure version for anti-rollback"⟩]

/-- The expected value a rule prescribes for a mode. -/
def EfuseRule.expectedFor (r : EfuseRule) : Mode → Expected
  | .virgin => r.virgin
  | .locked => r.locked

/-- Python `actual == n` for an `int` literal `n`: numeric equality for
ints, `False` across types (no exception). -/
def pyEqInt (v : RawVal) (n : Int) : Bool :=
  match v with
  | .rint a => a == n
  | _ => false

/-- `if isinstance(actual, dict): actual = actual.get("value", actual)`. -/
def unwrapVal (v : RawVal) : RawVal :=
  match v with
  | .rdict fields => (fields.lookup "value").getD (.rdict fields)
  | _ => v

/-- Evaluate an expected value against an actual raw value.  A literal
compares with `==` (never throws); `v in [1, 3, 5, 7]` is `False` for
non-int values (never throws); `v >= 0` raises `TypeError` unless `v` is
an int. -/
def evalExpected (e : Expected) (v : RawVal) : Except PyErr Bool :=
  match e with
  | .lit n => .ok (pyEqInt v n)
  | .inList l =>
      .ok (match v with
        | .rint a => l.contains a
        | _ => false)
  | .geZero =>
      match v with
      | .rint a => .ok (decide (a ≥ 0))
      | _ => .error .typeError

/-- The `actual` field of a produced check: the string sentinel
`"NOT_FOUND"` or the (unwrapped) raw value. -/
inductive ActualVal where
  | NOT_FOUND
  | found (v : RawVal)

/-- One entry of `results["checks"]`. -/
structure ECheck where
  efuse : String
  description : String
  actual : ActualVal
  passed : Bool

/-- The report built by `verify_efuses`. -/
structure EReport where
  mode : Mode
  passed : Bool
  checks : List ECheck

/-- The per-rule loop body of `verify_efuses`, over a list of rules: a rule
whose attribute is absent yields a `NOT_FOUND` failing check; otherwise the
value is unwrapped and judged by the mode's expected value, whose
evaluation may raise (and then nothing is returned at all). -/
def runEfuseChecks (rules : List EfuseRule)
    (efuseData : List (String × RawVal)) (mode : Mode) :
    Except PyErr (List ECheck) :=
  match rules with
  | [] => .ok []
  | r :: rest => do
      match efuseData.lookup r.name with
      | none =>
          let tail ← runEfuseChecks rest efuseData mode
          .ok ({ efuse := r.name, description := r.description,
                 actual := .NOT_FOUND, passed := false } :: tail)
      | some raw =>
          let actual := unwrapVal raw
          let ok ← evalExpected (r.expectedFor mode) actual
          let tail ← runEfuseChecks rest efuseData mode
          .ok ({ efuse := r.name, description := r.description,
                 actual := .found actual, passed := ok } :: tail)

/-- `verify_efuses(efuse_data, expect_mode)`: run every rule of
`SECURITY_EFUSES` in order; `results["passed"]` is the running conjunction
of the individual checks. -/
def verify_efuses (efuseData : List (String × RawVal)) (mode : Mode) :
    Except PyErr EReport := do
  let checks ← runEfuseChecks SECURITY_EFUSES efuseData mode
  .ok { mode := mode, passed := checks.all (·.passed), checks := checks }

/-!
Part 2b: `firmware/provisioning/securacv-provisioning/scripts/verify_device.py`
— `DeviceIdentity`, `EfuseState`, `verify_post_provision`, and the overall
pass computed in `main` (`passed count == total`).
-/

/-- Python substring test `pat in hay` over character lists. -/
def charsContain (hay pat : List Char) : Bool :=
  match hay with
  | [] => pat.isEmpty
  | _ :: t => pat.isPrefixOf hay || charsContain t pat

/-- Python `pat in s` on strings. -/
def strContains (s pat : String) : Bool :=
  charsContain s.data pat.data

/-- `DeviceIdentity` dataclass. -/
structure DeviceIdentity where
  chip_model : String := ""
  chip_revision : String := ""
  chip_id : String := ""
  mac_address : String := ""
  flash_size : String := ""
  crystal_freq : String := ""
deriving DecidableEq, Repr

/-- `EfuseState` dataclass (unread fields default to -1 / empty). -/
structure EfuseState where
  secure_boot_en : Int := -1
  spi_boot_crypt_cnt : Int := -1
  dis_download_manual_encrypt : Int := -1
  dis_pad_jtag : Int := -1
  dis_usb_jtag : Int := -1
  dis_usb_serial_jtag : Int := -1
  soft_dis_jtag : Int := -1
  enable_security_download : Int := -1
  dis_download_mode : Int := -1
  dis_direct_boot : Int := -1
  key_purpose_0 : String := ""
  key_purpose_1 : String := ""
  key_purpose_2 : String := ""
  key_purpose_3 : String := ""
  key_purpose_4 : String := ""
  key_purpose_5 : String := ""
  dis_usb_device : Int := -1
  jtag_sel_enable : Int := -1
  secure_boot_key_revoke0 : Int := -1
  secure_boot_key_revoke1 : Int := -1
  secure_boot_key_revoke2 : Int := -1
deriving DecidableEq, Repr

/-- `getattr(efuse, f"key_purpose_{i}", "")`. -/
def keyPurpose (e : EfuseState) : Nat → String
  | 0 => e.key_purpose_0
  | 1 => e.key_purpose_1
  | 2 => e.key_purpose_2
  | 3 => e.key_purpose_3
  | 4 => e.key_purpose_4
  | 5 => e.key_purpose_5
  | _ => ""

/-- One record appended by `check(results, name, passed, detail)`. -/
structure PCheck where
  name : String
  passed : Bool
  detail : String
deriving DecidableEq, Repr

/-- The failing aggregate check recorded when no key purpose slot carries
`SECURE_BOOT_DIGEST`. -/
def sbMissingCheck : PCheck :=
  { name := "Secure Boot Digest in key blocks",
    passed := false,
    detail := "No SECURE_BOOT_DIGEST found in any key purpose" }

/-- The per-slot secure-boot-digest checks: for each key purpose slot that
contains `SECURE_BOOT_DIGEST`, a passing check is appended. -/
def sbDigestChecks (e : EfuseState) : List PCheck :=
  (List.range 6).filterMap fun i =>
    if strContains (keyPurpose e i) "SECURE_BOOT_DIGEST" then
      some { name := "KEY_PURPOSE_" ++ toString i ++ " = Secure Boot Digest",
             passed := true,
             detail := "KEY_PURPOSE_" ++ toString i ++ " = " ++ keyPurpose e i }
    else none

/-- `sb_found`: some key purpose slot contains `SECURE_BOOT_DIGEST`. -/
def sbFound (e : EfuseState) : Bool :=
  (List.range 6).any fun i => strContains (keyPurpose e i) "SECURE_BOOT_DIGEST"

/-- The three accepted flash-encryption purposes for key slot 0. -/
def fePurposes : List String :=
  ["XTS_AES_128_KEY", "XTS_AES_256_KEY_1", "XTS_AES_256_KEY_2"]

/-- `verify_post_provision(dev, efuse)`: the ordered check list of the
post-provisioning (locked) verification, including the aggregate
"Secure Boot Digest in key blocks" failure when no slot carries the
digest purpose. -/
def verify_post_provision (dev : DeviceIdentity) (e : EfuseState) :
    List PCheck :=
  [{ name := "Chip is ESP32-S3",
     passed := strContains dev.chip_model "ESP32-S3",
     detail := "Detected: " ++ dev.chip_model },
   { name := "Secure Boot ENABLED",
     passed := e.secure_boot_en == 1,
     detail := "SECURE_BOOT_EN = " ++ toString e.secure_boot_en },
   { name := "Flash Encryption ENABLED (release)",
     passed := e.spi_boot_crypt_cnt == 7 || e.spi_boot_crypt_cnt == 0x7,
     detail := "SPI_BOOT_CRYPT_CNT = " ++ toString e.spi_boot_crypt_cnt
       ++ " (want 7)" },
   { name := "Manual encrypt download DISABLED",
     passed := e.dis_download_manual_encrypt == 1,
     detail := "DIS_DOWNLOAD_MANUAL_ENCRYPT = "
       ++ toString e.dis_download_manual_encrypt },
   { name := "Pad JTAG DISABLED",
     passed := e.dis_pad_jtag == 1,
     detail := "DIS_PAD_JTAG = " ++ toString e.dis_pad_jtag },
   { name := "USB JTAG DISABLED",
     passed := e.dis_usb_jtag == 1,
     detail := "DIS_USB_JTAG = " ++ toString e.dis_usb_jtag },
   { name := "KEY_PURPOSE_0 = Flash Encryption",
     passed := fePurposes.any (fun p => strContains e.key_purpose_0 p),
     detail := "KEY_PURPOSE_0 = " ++ e.key_purpose_0 }]
  ++ sbDigestChecks e
  ++ (if sbFound e then [] else [sbMissingCheck])
  ++ [{ name := "Security download ENABLED",
        passed := e.enable_security_download == 1,
        detail := "ENABLE_SECURITY_DOWNLOAD = "
          ++ toString e.enable_security_download }]

/-- `main`'s summary: `overall_pass = (passed == total)` where `passed`
counts the passing checks. -/
def overallPass (checks : List PCheck) : Bool :=
  (checks.filter (·.passed)).length == checks.length

/-- A fully hardened efuse state except that no key slot carries the
secure-boot-digest purpose (key 0 is assigned to flash encryption). -/
def digestlessEfuse : EfuseState :=
  { secure_boot_en := 1, spi_boot_crypt_cnt := 7,
    dis_download_manual_encrypt := 1, dis_pad_jtag := 1, dis_usb_jtag := 1,
    enable_security_download := 1,
    key_purpose_0 := "XTS_AES_256_KEY_1",
    key_purpose_1 := "USER/EMPTY", key_purpose_2 := "USER/EMPTY",
    key_purpose_3 := "USER/EMPTY", key_purpose_4 := "USER/EMPTY",
    key_purpose_5 := "USER/EMPTY" }

/-- A genuine chip identity. -/
def s3Device : DeviceIdentity := { chip_model := "ESP32-S3 (QFN56, revision v0.2)" }

/-- Guard used by the amended no-throw statement: any present
`SECURE_VERSION` attribute unwraps to an int. -/
def svIntOk (data : List (String × RawVal)) : Bool :=
  match data.lookup "SECURE_VERSION" with
  | none => true
  | some raw =>
      match unwrapVal raw with
      | .rint _ => true
      | _ => false

/-!  Helper lemmas.  -/

theorem length_filter_lt_of_mem {α : Type} (P : α → Bool) {c : α} {l : List α}
    (hc : c ∈ l) (hp : P c = false) : (l.filter P).length < l.length := by
  induction l with
  | nil => cases hc
  | cons a t ih =>
      rcases List.mem_cons.mp hc with rfl | hmem
      · simp only [List.filter_cons, hp, Bool.false_eq_true, if_false,
          List.length_cons]
        exact Nat.lt_succ_of_le (List.length_filter_le P t)
      · simp only [List.filter_cons, List.length_cons]
        split
        · exact Nat.succ_lt_succ (ih hmem)
        · exact Nat.lt_succ_of_lt (ih hmem)

theorem overallPass_false_of_mem {c : PCheck} {cs : List PCheck}
    (hc : c ∈ cs) (hp : c.passed = false) : overallPass cs = false := by
  have hlt := length_filter_lt_of_mem (fun x => x.passed) hc hp
  rw [overallPass]
  exact beq_eq_false_iff_ne.mpr (Nat.ne_of_lt hlt)

theorem runChecks_seen_mono (tt : String) (checks : List (String × String))
    {k : String} : ∀ seen : List String, seen.contains k = true →
    ((runChecks tt checks seen).2).contains k = true := by
  induction checks with
  | nil => intro seen h; simpa [runChecks] using h
  | cons q rest ih =>
      intro seen h
      obtain ⟨t, k'⟩ := q
      simp only [runChecks]
      split
      · exact ih (k' :: seen) (by rw [List.contains_cons, h, Bool.or_true])
      · exact ih seen h

theorem runChecks_complete (tt : String) (checks : List (String × String)) :
    ∀ seen : List String, ∀ p ∈ checks, tt == p.1 →
    ((runChecks tt checks seen).2).contains p.2 = true := by
  induction checks with
  | nil => intro seen p hp; cases hp
  | cons q rest ih =>
      intro seen p hp htt
      obtain ⟨t, k'⟩ := q
      rcases List.mem_cons.mp hp with rfl | hmem
      · simp only [runChecks]
        split
        · exact runChecks_seen_mono tt rest (k' :: seen)
            (by simp [List.contains_cons])
        · rename_i hcond
          have hseen : seen.contains k' = true := by
            by_contra hc
            exact hcond (by simp_all)
          exact runChecks_seen_mono tt rest seen hseen
      · simp only [runChecks]
        split
        · exact ih (k' :: seen) p hmem htt
        · exact ih seen p hmem htt

theorem runChecks_nofire (tt : String) (checks : List (String × String)) :
    ∀ seen : List String,
    (∀ p ∈ checks, tt == p.1 → seen.contains p.2 = true) →
    runChecks tt checks seen = ([], seen) := by
  induction checks with
  | nil => intro seen _; rfl
  | cons q rest ih =>
      intro seen h
      obtain ⟨t, k'⟩ := q
      have hcond : (tt == t && !seen.contains k') = false := by
        cases htt : (tt == t) with
        | false => simp
        | true =>
            have hk := h (t, k') (List.mem_cons_self _ _) htt
            rw [hk]
            rfl
      simp only [runChecks, hcond, Bool.false_eq_true, if_false]
      exact ih seen fun p hp => h p (List.mem_cons_of_mem _ hp)

theorem runChecks_idem (tt : String) (checks : List (String × String))
    (seen : List String) :
    runChecks tt checks (runChecks tt checks seen).2
      = ([], (runChecks tt checks seen).2) :=
  runChecks_nofire tt checks _
    (fun p hp htt => runChecks_complete tt checks seen p hp htt)

theorem lookupReg_setReg (r : Registry) (d : String) (ks : List String) :
    lookupReg (setReg r d ks) d = ks := by
  induction r with
  | nil => simp [setReg, lookupReg, List.lookup]
  | cons hd t ih =>
      obtain ⟨d', ks'⟩ := hd
      by_cases hdd : d = d'
      · subst hdd; simp [setReg, lookupReg, List.lookup]
      · simp only [setReg, if_neg hdd, lookupReg, List.lookup,
          beq_eq_false_iff_ne.mpr hdd]
        exact ih

theorem setReg_setReg (r : Registry) (d : String) (ks ks' : List String) :
    setReg (setReg r d ks) d ks' = setReg r d ks' := by
  induction r with
  | nil => simp [setReg]
  | cons hd t ih =>
      obtain ⟨d', l⟩ := hd
      by_cases hdd : d = d'
      · subst hdd; simp [setReg]
      · simp [setReg, hdd, ih]

theorem discoverStep_idem (r : Registry) (topic : String) :
    discoverStep (discoverStep r topic).2 topic
      = ([], (discoverStep r topic).2) := by
  by_cases hlen : (splitSlash topic.data).length < 3
  · simp [discoverStep, hlen]
  · simp only [discoverStep, if_neg hlen]
    rw [lookupReg_setReg, runChecks_idem, setReg_setReg]

/-!  Claim theorems.  -/

/-- C1, counterexample.  A gpio tamper-topic message latches the gpio
sensor on and stamps `last_triggered`; a subsequent health message with no
gpio indication is claimed to leave the signal true, but the health handler
overwrites `_attr_is_on` with the recomputed indication and clears it to
false (while `last_triggered` is indeed left unchanged). -/
theorem C1_counterexample :
    let s1 := (ttTamperHandle .gpio 1 (.js (.jobj [("type", .jstr "gpio")]))
      ⟨false, none⟩).1
    s1.is_on = true ∧ s1.last_triggered = some 1 ∧
    (ttHealthHandle .gpio 2 (.js (.jobj [])) s1).1.is_on = false ∧
    (ttHealthHandle .gpio 2 (.js (.jobj [])) s1).1.last_triggered = some 1 :=
  ⟨rfl, rfl, rfl, rfl⟩

/-- C1, amended.  For every tamper type: the dedicated tamper-topic handler
never clears a latched signal, and a health message with no indication for
the tamper type (modelled by the empty JSON object) leaves `last_triggered`
unchanged but overwrites the signal to false — the flag survives only
tamper-topic traffic, not clean health traffic. -/
theorem C1_amended_latch (t : TamperType) (s : TTState) (now now2 : Nat)
    (p : Payload) (h : s.is_on = true) :
    (ttTamperHandle t now2 p s).1.is_on = true ∧
    ttHealthHandle t now (.js (.jobj [])) s
      = ({ is_on := false, last_triggered := s.last_triggered }, none) := by
  constructor
  · cases p with
    | notJson raw => exact h
    | js v =>
        cases v with
        | jobj fields =>
            simp only [ttTamperHandle]
            split
            · rfl
            · exact h
        | jnull => exact h
        | jbool b => exact h
        | jint n => exact h
        | jstr str => exact h
        | jarr elems => exact h
  · cases t <;> rfl

/-- C1, witness for the amended theorem at tamper type gpio. -/
theorem C1_witness :
    (ttTamperHandle .gpio 5 (.js (.jobj [("type", .jstr "gpio")]))
      ⟨true, some 1⟩).1.is_on = true ∧
    ttHealthHandle .gpio 7 (.js (.jobj [])) ⟨true, some 1⟩
      = ({ is_on := false, last_triggered := some 1 }, none) :=
  C1_amended_latch .gpio ⟨true, some 1⟩ 7 5
    (.js (.jobj [("type", .jstr "gpio")])) rfl

/-- C2, counterexample.  The aggregator is latched by a dedicated tamper
message, but a subsequent clean health message (empty JSON object) sets it
back to false; moreover a pure threshold breach in a health payload
(`free_heap` of 1) does not set it, because the health handler only reads
the `tamper_detected`/`tamper` fields. -/
theorem C2_counterexample :
    (aggTamperHandle (.js (.jobj [("type", .jstr "gpio")])) false).1 = true ∧
    (aggHealthHandle (.js (.jobj []))
      (aggTamperHandle (.js (.jobj [("type", .jstr "gpio")])) false).1).1
        = false ∧
    (aggHealthHandle (.js (.jobj [("free_heap", .jint 1)])) false).1 = false :=
  ⟨rfl, rfl, rfl⟩

/-- C2, amended.  Any tamper-topic message (decodable or not) sets the
aggregator true; a health message whose `tamper_detected` field is truthy
sets it true; but a clean health message (no tamper indication) resets it
to false — the aggregator mirrors the most recent health message instead of
latching, and health thresholds play no part in it. -/
theorem C2_amended_aggregator (p : Payload) (b : Bool) :
    (aggTamperHandle p b).1 = true ∧
    (aggHealthHandle (.js (.jobj [("tamper_detected", .jbool true)])) b).1
      = true ∧
    aggHealthHandle (.js (.jobj [])) b = (false, none) := by
  refine ⟨?_, rfl, rfl⟩
  cases p with
  | notJson raw => rfl
  | js v => cases v <;> rfl

/-- C3.  A payload that is not decodable JSON raises `JSONDecodeError`,
which every JSON-expecting handler catches before touching any state: the
call returns the prior signal unchanged and no exception escapes.  (The
dedicated tamper topic of the aggregator and the plain-text status topic
are excluded: for those every raw payload has a raw interpretation.) -/
theorem C3_malformed_noop (raw : String) (t : TamperType) (channel : String)
    (now : Nat) (b : Bool) (s : TTState) :
    chainHandle (.notJson raw) b = (b, none) ∧
    aggHealthHandle (.notJson raw) b = (b, none) ∧
    ttTamperHandle t now (.notJson raw) s = (s, none) ∧
    ttHealthHandle t now (.notJson raw) s = (s, none) ∧
    transportHandle channel (.notJson raw) b = (b, none) ∧
    meshHandle (.notJson raw) b = (b, none) ∧
    chirpHandle (.notJson raw) b = (b, none) :=
  ⟨rfl, rfl, rfl, rfl, rfl, rfl, rfl⟩

/-- C9.  The memory-critical signal uses strictly-less-than 10000: a health
payload with `free_heap` of 10000 yields a false signal, 9999 yields true,
from any prior state. -/
theorem C9_memory_threshold (s : TTState) (now : Nat) :
    (ttHealthHandle .memory now
      (.js (.jobj [("free_heap", .jint 10000)])) s).1.is_on = false ∧
    (ttHealthHandle .memory now
      (.js (.jobj [("free_heap", .jint 9999)])) s).1.is_on = true :=
  ⟨rfl, rfl⟩

/-- C10.  A topic with fewer than three slash-separated segments makes the
discovery callback return immediately: no entity is created and the
registry is exactly unchanged, whatever the payload (the callback never
reads it before this guard). -/
theorem C10_short_topic (r : Registry) (topic : String)
    (h : (splitSlash topic.data).length < 3) :
    discoverStep r topic = ([], r) := by
  simp [discoverStep, h]

/-- C10, witness at the two-segment topic `a/b`. -/
theorem C10_witness :
    discoverStep [("dev1", ["online"])] "a/b" = ([], [("dev1", ["online"])]) :=
  C10_short_topic [("dev1", ["online"])] "a/b" (by decide)

/-- C6.  Discovery is idempotent and keyed by the (device, category) pair:
a first registration returns true, re-registering the same pair returns
false and leaves the registry exactly unchanged, a different category for
the same device registers as new again; and replaying any topic through
the discovery callback creates its entity groups only the first time. -/
theorem C6_idempotent_discovery (r : Registry) (d c : String)
    (h : (lookupReg r d).contains c = false) :
    (registerIfNew r d c).1 = true ∧
    (registerIfNew (registerIfNew r d c).2 d c).1 = false ∧
    (registerIfNew (registerIfNew r d c).2 d c).2 = (registerIfNew r d c).2 ∧
    (∀ c', c' ≠ c → (lookupReg r d).contains c' = false →
      (registerIfNew (registerIfNew r d c).2 d c').1 = true) ∧
    (∀ topic : String,
      (discoverStep (discoverStep r topic).2 topic).1 = [] ∧
      (discoverStep (discoverStep r topic).2 topic).2
        = (discoverStep r topic).2) := by
  have h1 : registerIfNew r d c = (true, setReg r d (c :: lookupReg r d)) := by
    simp only [registerIfNew, h, Bool.false_eq_true, if_false]
  have hlook : lookupReg (setReg r d (c :: lookupReg r d)) d
      = c :: lookupReg r d := lookupReg_setReg r d _
  refine ⟨by simp [h1], ?_, ?_, ?_, ?_⟩
  · rw [h1]
    simp [registerIfNew, hlook, List.contains_cons]
  · rw [h1]
    simp [registerIfNew, hlook, List.contains_cons]
  · intro c' hne hc'
    rw [h1]
    simp only [registerIfNew, hlook, List.contains_cons,
      beq_eq_false_iff_ne.mpr hne, hc', Bool.or_false, Bool.false_eq_true,
      if_false]
  · intro topic
    have hid := discoverStep_idem r topic
    exact ⟨by rw [hid], by rw [hid]⟩

/-- C6, witness: device dev1, category key tamper, second category online,
and the health topic replayed twice. -/
theorem C6_witness :
    (registerIfNew [] "dev1" "tamper").1 = true ∧
    (registerIfNew (registerIfNew [] "dev1" "tamper").2 "dev1" "tamper").1
      = false ∧
    (registerIfNew (registerIfNew [] "dev1" "tamper").2 "dev1" "online").1
      = true ∧
    (discoverStep (discoverStep [] "securacv/dev1/health").2
      "securacv/dev1/health").1 = [] := by
  obtain ⟨h1, h2, _h3, h4, h5⟩ :=
    C6_idempotent_discovery [] "dev1" "tamper" (by decide)
  exact ⟨h1, h2, h4 "online" (by decide) (by decide),
    (h5 "securacv/dev1/health").1⟩

/-- C4.  With an empty attribute map, `verify_efuses` returns normally in
both modes: the report fails overall and consists of one check per rule of
the table, each with actual `NOT_FOUND` and passed false. -/
theorem C4_empty_attributes (m : Mode) :
    verify_efuses [] m = .ok
      { mode := m, passed := false,
        checks := SECURITY_EFUSES.map fun r =>
          { efuse := r.name, description := r.description,
            actual := .NOT_FOUND, passed := false } } := by
  cases m <;> rfl

/-- When every rule whose attribute is present evaluates without raising,
the whole check loop returns normally. -/
theorem runEfuseChecks_ok (rules : List EfuseRule)
    (data : List (String × RawVal)) (m : Mode)
    (h : ∀ r ∈ rules, ∀ raw, data.lookup r.name = some raw →
      ∃ b, evalExpected (r.expectedFor m) (unwrapVal raw) = .ok b) :
    ∃ cs, runEfuseChecks rules data m = .ok cs := by
  induction rules with
  | nil => exact ⟨[], rfl⟩
  | cons r rest ih =>
      obtain ⟨cs, hcs⟩ := ih fun r' hr' => h r' (List.mem_cons_of_mem _ hr')
      cases hnd : data.lookup r.name with
      | none =>
          have heq : runEfuseChecks (r :: rest) data m
              = .ok ({ efuse := r.name, description := r.description,
                       actual := .NOT_FOUND, passed := false } :: cs) := by
            simp only [runEfuseChecks, hnd]
            rw [hcs]
            rfl
          exact ⟨_, heq⟩
      | some raw =>
          obtain ⟨b, hb⟩ := h r (List.mem_cons_self _ _) raw hnd
          have heq : runEfuseChecks (r :: rest) data m
              = .ok ({ efuse := r.name, description := r.description,
                       actual := .found (unwrapVal raw), passed := b } :: cs) := by
            simp only [runEfuseChecks, hnd]
            rw [hb, hcs]
            rfl
          exact ⟨_, heq⟩

/-- C7, counterexample.  A non-numeric `SECURE_VERSION` raw value (as the
text-summary parser produces for any non-coercible token) makes locked-mode
verification raise `TypeError` out of `verify_efuses`, because the rule's
locked expectation is the comparison `v >= 0`. -/
theorem C7_counterexample :
    verify_efuses [("SECURE_VERSION", .rstr "not_a_number")] .locked
      = .error .typeError := rfl

/-- C7, amended.  Virgin-mode verification never raises, for any attribute
map; locked-mode verification never raises provided a present
`SECURE_VERSION` value unwraps to an int — only that rule's `v >= 0`
lambda can throw. -/
theorem C7_amended_no_throw (data : List (String × RawVal)) :
    (∃ rep, verify_efuses data .virgin = .ok rep) ∧
    (svIntOk data = true →
      ∃ rep, verify_efuses data .locked = .ok rep) := by
  constructor
  · have hv : ∀ r ∈ SECURITY_EFUSES, ∀ raw, data.lookup r.name = some raw →
        ∃ b, evalExpected (r.expectedFor .virgin) (unwrapVal raw) = .ok b := by
      intro r hr
      fin_cases hr <;> exact fun raw _ => ⟨_, rfl⟩
    obtain ⟨cs, hcs⟩ := runEfuseChecks_ok SECURITY_EFUSES data .virgin hv
    have heq : verify_efuses data .virgin
        = .ok { mode := .virgin, passed := cs.all (·.passed), checks := cs } := by
      simp only [verify_efuses]
      rw [hcs]
      rfl
    exact ⟨_, heq⟩
  · intro hsv
    have hl : ∀ r ∈ SECURITY_EFUSES, ∀ raw, data.lookup r.name = some raw →
        ∃ b, evalExpected (r.expectedFor .locked) (unwrapVal raw) = .ok b := by
      intro r hr
      fin_cases hr <;>
        first
        | exact fun raw _ => ⟨_, rfl⟩
        | · intro raw hraw
            have hg := hsv
            unfold svIntOk at hg
            simp only [hraw] at hg
            cases hu : unwrapVal raw with
            | rint n => exact ⟨_, rfl⟩
            | rstr str => rw [hu] at hg; simp at hg
            | rdict fields => rw [hu] at hg; simp at hg
    obtain ⟨cs, hcs⟩ := runEfuseChecks_ok SECURITY_EFUSES data .locked hl
    have heq : verify_efuses data .locked
        = .ok { mode := .locked, passed := cs.all (·.passed), checks := cs } := by
      simp only [verify_efuses]
      rw [hcs]
      rfl
    exact ⟨_, heq⟩

/-- C7, witness at a map holding a numeric secure version (the locked
conjunct's guard discharged by evaluation). -/
theorem C7_witness :
    (∃ rep, verify_efuses [("SECURE_VERSION", .rint 5)] .virgin = .ok rep) ∧
    (∃ rep, verify_efuses [("SECURE_VERSION", .rint 5)] .locked = .ok rep) :=
  ⟨(C7_amended_no_throw [("SECURE_VERSION", .rint 5)]).1,
   (C7_amended_no_throw [("SECURE_VERSION", .rint 5)]).2 rfl⟩

/-- C8, counterexample.  Not every both-literal rule separates the modes:
`JTAG_SEL_ENABLE` expects the literal 0 in virgin mode and the literal 0 in
locked mode (its own description says it should stay 0). -/
theorem C8_counterexample :
    ¬ (∀ r ∈ SECURITY_EFUSES, ∀ a b : Int,
        r.virgin = Expected.lit a → r.locked = Expected.lit b → a ≠ b) := by
  intro hall
  exact hall
    ⟨"JTAG_SEL_ENABLE", .lit 0, .lit 0, "JTAG selection (should stay 0)"⟩
    (by decide) 0 0 rfl rfl rfl

/-- C8, amended.  `JTAG_SEL_ENABLE` is the unique rule of the table whose
virgin and locked expectations are equal literals; every other rule with
two literal expectations separates the two modes. -/
theorem C8_amended_jtag_only :
    (SECURITY_EFUSES.filter fun r =>
      match r.virgin, r.locked with
      | Expected.lit a, Expected.lit b => a == b
      | _, _ => false).map (fun r => r.name) = ["JTAG_SEL_ENABLE"] := rfl

/-- C5.  Whenever no key slot's purpose contains `SECURE_BOOT_DIGEST`, the
post-provision report contains the dedicated failing aggregate check
"Secure Boot Digest in key blocks", and the overall pass computed over the
report is false — regardless of every other attribute. -/
theorem C5_digest_aggregate (dev : DeviceIdentity) (e : EfuseState)
    (h : ∀ i, i < 6 →
      strContains (keyPurpose e i) "SECURE_BOOT_DIGEST" = false) :
    sbMissingCheck ∈ verify_post_provision dev e ∧
    overallPass (verify_post_provision dev e) = false := by
  have hFound : sbFound e = false := by
    by_contra hb
    rw [Bool.not_eq_false, sbFound, List.any_eq_true] at hb
    obtain ⟨i, hi, hstr⟩ := hb
    rw [h i (List.mem_range.mp hi)] at hstr
    cases hstr
  have hmem : sbMissingCheck ∈ verify_post_provision dev e := by
    unfold verify_post_provision
    apply List.mem_append_left
    apply List.mem_append_right
    rw [hFound]
    simp
  exact ⟨hmem, overallPass_false_of_mem hmem rfl⟩

/-- C5, witness: a fully hardened device whose only defect is the missing
secure-boot-digest purpose; the aggregate check is also the only failing
check of its report. -/
theorem C5_witness :
    (sbMissingCheck ∈ verify_post_provision s3Device digestlessEfuse ∧
     overallPass (verify_post_provision s3Device digestlessEfuse) = false) ∧
    (verify_post_provision s3Device digestlessEfuse).filter
        (fun c => !c.passed)
      = [sbMissingCheck] :=
  ⟨C5_digest_aggregate s3Device digestlessEfuse (by decide), rfl⟩

end SecuraCV
